import Mathlib

/-!
Shallow embedding of the EMPLOYEE_ANALYSIS forecasting core.

The Python sources embedded here are:
  * `ml_models/productivity_forecaster.py` (`ProductivityForecaster`)
  * `models/attendance_models/predict_attendance.py` (`AttendancePredictor`)
  * `models/attendance_models/lr_model.py`, `prophet_model.py`, `lstm_model.py`
  * `data/productivity/csv_writer.py`

Modelling conventions:
  * Python floats are modelled as exact rationals (`ℚ`); Python ints as `ℤ`.
  * Calendar dates are modelled as integers (day numbers); `date + timedelta(days=i)`
    is integer addition, and `weekday()` is `% 7` (an epoch aligned on a Monday).
  * `round` is Python 3 `round`: banker's rounding (half to even), and
    `round(x, n)` rounds to `n` decimal digits.
  * Pandas data frames are lists of records; file-backed state is passed
    explicitly (a CSV file is `missing`, `corrupt`, or holds a list of rows).
  * Calls into trained ML models (`RandomForestRegressor.predict`, the three
    attendance sub-models' fitted predictors) and random draws
    (`np.random.normal`, `np.random.randint`, `np.random.random`) are not
    reproducible in the embedding; they are abstracted as oracle parameters,
    and every theorem quantifies over (or instantiates) those oracles.
-/

namespace EmployeeAnalysis

/-- Banker's rounding to an integer: the model of Python 3 `round(q)` on an
exact rational. Halves round to the even neighbour. -/
def pyRound (q : ℚ) : ℤ :=
  let f := ⌊q⌋
  let r := q - (f : ℚ)
  if r < 1/2 then f
  else if 1/2 < r then f + 1
  else if f % 2 = 0 then f else f + 1

/-- Python `round(q, n)`: banker's rounding to `n` decimal digits. -/
def pyRoundTo (n : ℕ) (q : ℚ) : ℚ :=
  (pyRound (q * (10 : ℚ) ^ n) : ℚ) / (10 : ℚ) ^ n

/-- Model of `np.clip(x, lo, hi)` (also of `max(lo, min(hi, x))` chains). -/
def clipQ (x lo hi : ℚ) : ℚ := max lo (min hi x)

/-- Model of Python's `date.weekday()` under the integer-day model
(Monday-aligned epoch): result in `0..6`, weekend is `≥ 5`. -/
def pyWeekday (d : ℤ) : ℤ := d % 7

/-! ## `ProductivityForecaster` storage: `data/productivity_daily.csv` -/

/-- One row of `productivity_daily.csv`:
columns `user_id, date, score, completed, total`. -/
structure DailyRow where
  userId : ℤ
  date : ℤ
  score : ℚ
  completed : ℤ
  total : ℤ
  deriving DecidableEq, Repr

/-- Index of the first list element satisfying `p` — the model of
`df[mask].index[0]` after `mask.any()` (pandas keeps positional order). -/
def firstIdx (p : α → Bool) : List α → Option ℕ
  | [] => none
  | a :: l => if p a then some 0 else (firstIdx p l).map (· + 1)

/-- The row mask of `update_today`:
`(df["user_id"] == user_id) & (df["date"] == today)`. -/
def isTodayRow (uid today : ℤ) (r : DailyRow) : Bool :=
  r.userId = uid && r.date = today

/-- Replace the element at index `i` by `f` of it (no-op when out of range):
the model of the `df.at[idx, col] = ...` writes of `update_today`. -/
def modifyAt (l : List DailyRow) (i : ℕ) (f : DailyRow → DailyRow) : List DailyRow :=
  match l.get? i with
  | some r => l.set i (f r)
  | none => l

/-- The update branch of `update_today`: each field is overwritten only when
the corresponding argument was supplied. -/
def applyUpd (s? : Option ℚ) (c? t? : Option ℤ) (r : DailyRow) : DailyRow :=
  { r with
    score := match s? with | some s => s | none => r.score
    completed := match c? with | some c => c | none => r.completed
    total := match t? with | some t => t | none => r.total }

/-- Python `today_score or 70`: `None` and the falsy `0.0` both yield `70`. -/
def pyOrSeventy (s? : Option ℚ) : ℚ :=
  match s? with
  | some s => if s = 0 then 70 else s
  | none => 70

/-- Model of `ProductivityForecaster.update_today` (the upsert): if a row for
`(user_id, today)` exists, overwrite exactly the supplied fields; otherwise
create a row using the fallback defaults
`total = 6`, `completed = max(0, min(total, round((today_score or 70)/100*total)))`,
`score = completed/max(total,1)*100`. -/
def updateToday (df : List DailyRow) (today uid : ℤ)
    (s? : Option ℚ) (c? t? : Option ℤ) : List DailyRow :=
  match firstIdx (isTodayRow uid today) df with
  | some i => modifyAt df i (applyUpd s? c? t?)
  | none =>
    let total : ℤ := t?.getD 6
    let completed : ℤ :=
      c?.getD (max 0 (min total (pyRound (pyOrSeventy s? / 100 * (total : ℚ)))))
    let score : ℚ :=
      match s? with
      | some s => s
      | none => ((completed : ℚ) / ((max total 1 : ℤ) : ℚ)) * 100
    df ++ [⟨uid, today, score, completed, total⟩]

/-! ### Lemmas about `firstIdx` -/

theorem firstIdx_get {p : α → Bool} :
    ∀ {l : List α} {i : ℕ}, firstIdx p l = some i →
      ∃ r, l.get? i = some r ∧ p r = true := by
  intro l
  induction l with
  | nil => intro i h; simp [firstIdx] at h
  | cons a l ih =>
    intro i h
    by_cases ha : p a
    · simp [firstIdx, ha] at h
      subst h
      exact ⟨a, rfl, ha⟩
    · simp [firstIdx, ha] at h
      obtain ⟨j, hj, rfl⟩ := h
      obtain ⟨r, hr, hpr⟩ := ih hj
      exact ⟨r, by simpa using hr, hpr⟩

theorem firstIdx_set {p : α → Bool} :
    ∀ {l : List α} {i : ℕ} {a : α}, firstIdx p l = some i → p a = true →
      firstIdx p (l.set i a) = some i := by
  intro l
  induction l with
  | nil => intro i a h _; simp [firstIdx] at h
  | cons x l ih =>
    intro i a h hpa
    by_cases hx : p x
    · simp [firstIdx, hx] at h
      subst h
      simp [List.set, firstIdx, hpa]
    · simp [firstIdx, hx] at h
      obtain ⟨j, hj, rfl⟩ := h
      simp [List.set, firstIdx, hx, ih hj hpa]

theorem get?_set_self :
    ∀ (l : List α) (i : ℕ) (a : α), i < l.length → (l.set i a).get? i = some a := by
  intro l
  induction l with
  | nil => intro i a h; simp at h
  | cons x l ih =>
    intro i a h
    cases i with
    | zero => rfl
    | succ j => exact ih j a (by simpa using h)

theorem lt_length_of_get?_eq_some {l : List α} {i : ℕ} {a : α}
    (h : l.get? i = some a) : i < l.length := by
  by_contra hlt
  push_neg at hlt
  rw [List.get?_eq_none.mpr hlt] at h
  exact Option.noConfusion h

/-- C1 (amended): on a store holding a row for `(user_id, today)` at first
matching index `i`, two successive `update_today` calls that omit `score` and
supply `completed`/`total` leave the row at `i` with the second call's
`completed` and `total` but with its ORIGINAL score: the update branch never
derives `score` from `completed/total`. -/
theorem updateToday_twice_keeps_score (df : List DailyRow) (today uid c₁ t₁ c₂ t₂ : ℤ)
    (i : ℕ) (r : DailyRow)
    (hidx : firstIdx (isTodayRow uid today) df = some i)
    (hr : df.get? i = some r) :
    (updateToday (updateToday df today uid none (some c₁) (some t₁))
        today uid none (some c₂) (some t₂)).get? i
      = some { r with completed := c₂, total := t₂ } := by
  have hp : isTodayRow uid today r = true := by
    obtain ⟨r', hr', hpr'⟩ := firstIdx_get hidx
    rw [hr] at hr'
    cases hr'
    exact hpr'
  have hlen : i < df.length := lt_length_of_get?_eq_some hr
  have h1 : updateToday df today uid none (some c₁) (some t₁)
      = df.set i (applyUpd none (some c₁) (some t₁) r) := by
    simp only [updateToday, hidx, modifyAt, hr]
  have hp1 : isTodayRow uid today (applyUpd none (some c₁) (some t₁) r) = true := hp
  have hidx1 : firstIdx (isTodayRow uid today)
      (df.set i (applyUpd none (some c₁) (some t₁) r)) = some i :=
    firstIdx_set hidx hp1
  have hr1 : (df.set i (applyUpd none (some c₁) (some t₁) r)).get? i
      = some (applyUpd none (some c₁) (some t₁) r) :=
    get?_set_self df i _ hlen
  have h2 : updateToday (df.set i (applyUpd none (some c₁) (some t₁) r))
        today uid none (some c₂) (some t₂)
      = (df.set i (applyUpd none (some c₁) (some t₁) r)).set i
          (applyUpd none (some c₂) (some t₂) (applyUpd none (some c₁) (some t₁) r)) := by
    simp only [updateToday, hidx1, modifyAt, hr1]
  rw [h1, h2]
  have hlen1 : i < (df.set i (applyUpd none (some c₁) (some t₁) r)).length := by
    simpa using hlen
  rw [get?_set_self _ i _ hlen1]
  rfl

/-- C1 (counterexample): store with the row `(user 1, today 0, score 50,
completed 1, total 2)`; two `update_today` calls omitting `score` with
`(completed, total) = (3, 4)` then `(1, 4)` leave `score = 50`, not the
second call's `completed/total*100 = 25`. -/
theorem claim1_counterexample :
    (updateToday (updateToday [⟨1, 0, 50, 1, 2⟩] 0 1 none (some 3) (some 4))
        0 1 none (some 1) (some 4))
      = [⟨1, 0, 50, 1, 4⟩] ∧ (50 : ℚ) ≠ (1 : ℚ) / 4 * 100 := by
  refine ⟨by decide, by norm_num⟩

/-- C1 witness: the amended theorem applied to the one-row store of the
counterexample. -/
theorem claim1_witness :
    (updateToday (updateToday [⟨1, 0, 50, 1, 2⟩] 0 1 none (some 3) (some 4))
        0 1 none (some 1) (some 4)).get? 0
      = some ⟨1, 0, 50, 1, 4⟩ :=
  updateToday_twice_keeps_score [⟨1, 0, 50, 1, 2⟩] 0 1 3 4 1 4 0 ⟨1, 0, 50, 1, 2⟩ rfl rfl

/-- C8 (amended): when no row exists for `(user_id, today)` and `score`,
`completed`, `total` are all omitted, `update_today` appends a row with the
fallback defaults `total = 6`, `completed = 4` (`round(70/100*6)`), and
`score = 4/6*100 = 200/3` — not zeros. -/
theorem updateToday_absent_all_defaults (df : List DailyRow) (today uid : ℤ)
    (h : firstIdx (isTodayRow uid today) df = none) :
    updateToday df today uid none none none = df ++ [⟨uid, today, 200/3, 4, 6⟩] := by
  unfold updateToday
  rw [h]
  norm_num [pyOrSeventy, pyRound]

/-- C8 (counterexample): on an empty store, `update_today` with everything
omitted creates the row `(score 200/3, completed 4, total 6)`, which is not
the zero-defaults row claimed. -/
theorem claim8_counterexample :
    updateToday [] 0 1 none none none = [⟨1, 0, 200/3, 4, 6⟩] ∧
      ([⟨1, 0, 200/3, 4, 6⟩] : List DailyRow) ≠ [⟨1, 0, 0, 0, 0⟩] := by
  constructor
  · simp only [updateToday, firstIdx]
    norm_num [pyOrSeventy, pyRound]
  · intro h
    simp only [List.cons.injEq, DailyRow.mk.injEq] at h
    exact absurd h.1.2.2.1 (by norm_num)

/-- C8 witness: the amended theorem applied to the empty store. -/
theorem claim8_witness :
    updateToday [] 0 1 none none none = [] ++ [⟨1, 0, 200/3, 4, 6⟩] :=
  updateToday_absent_all_defaults [] 0 1 rfl

/-! ## `ProductivityForecaster.get_trend_data` -/

/-- One point of the prepared per-user series: `(date, score)`. -/
structure SeriesPoint where
  date : ℤ
  score : ℚ
  deriving DecidableEq, Repr

/-- The history/forecast block returned by `get_trend_data`
(`history`/`forecast`, each with `dates` and `scores`). -/
structure TrendData where
  historyDates : List ℤ
  historyScores : List ℤ
  forecastDates : List ℤ
  forecastScores : List ℤ
  deriving DecidableEq, Repr

/-- Model of pandas `df.tail(n)`: the last `n` elements. -/
def tailN (n : ℕ) (l : List α) : List α := l.drop (l.length - n)

/-- Body of `get_trend_data` after `_prepare_series`: takes the prepared,
chronologically sorted per-user series. The `RandomForestRegressor` fitted on
the history is not reproducible here; `model` is the oracle standing for its
`predict` on a `(future_idx, day_of_week)` feature pair, and is consulted
only on the `len(history_df) >= 5` branch. On the sparse branch (`< 5`) the
code forecasts `round(np.mean(y))` for each horizon day.

The Python raises `IndexError` (`.iloc[-1]` on an empty frame) when
`history_days = 0` is passed with a non-empty series; the `⟨0, 0⟩` default
below is never reached under the hypotheses of the theorems that use it. -/
def getTrendDataFromSeries (series : List SeriesPoint) (historyDays horizon : ℕ)
    (model : ℤ → ℤ → ℚ) : TrendData :=
  if series = [] then ⟨[], [], [], []⟩
  else
    let hist := tailN historyDays series
    let y := hist.map (·.score)
    let lastDate := (hist.getLastD ⟨0, 0⟩).date
    if hist.length < 5 then
      let avg : ℚ := y.sum / (y.length : ℚ)
      { historyDates := hist.map (·.date)
        historyScores := y.map pyRound
        forecastDates := (List.range horizon).map (fun (i : ℕ) => lastDate + ((i : ℤ) + 1))
        forecastScores := List.replicate horizon (pyRound avg) }
    else
      let lastIdx : ℤ := (hist.length : ℤ) - 1
      { historyDates := hist.map (·.date)
        historyScores := y.map pyRound
        forecastDates := (List.range horizon).map (fun (i : ℕ) => lastDate + ((i : ℤ) + 1))
        forecastScores := (List.range horizon).map (fun (i : ℕ) =>
          pyRound (clipQ (model (lastIdx + ((i : ℤ) + 1))
            (pyWeekday (lastDate + ((i : ℤ) + 1)))) 0 100)) }

/-- C2 (as stated): with at least 1 and fewer than 5 history points,
`get_trend_data` skips model fitting (the conclusion does not mention the
`model` oracle) and forecasts, for every horizon day, the banker-rounded
arithmetic mean of the history scores, dated on the `horizon` consecutive
calendar days after the last history date. -/
theorem getTrendData_sparse_flatline (series : List SeriesPoint)
    (historyDays horizon : ℕ) (model : ℤ → ℤ → ℚ)
    (h1 : 1 ≤ (tailN historyDays series).length)
    (h5 : (tailN historyDays series).length < 5)
    (hh : 1 ≤ horizon) :
    (getTrendDataFromSeries series historyDays horizon model).forecastScores
        = List.replicate horizon
            (pyRound (((tailN historyDays series).map (·.score)).sum
              / (((tailN historyDays series).map (·.score)).length : ℚ)))
      ∧ (getTrendDataFromSeries series historyDays horizon model).forecastDates
        = (List.range horizon).map
            (fun (i : ℕ) => ((tailN historyDays series).getLastD ⟨0, 0⟩).date + ((i : ℤ) + 1)) := by
  have hne : series ≠ [] := by
    intro h
    rw [h] at h1
    simp [tailN] at h1
  rw [getTrendDataFromSeries, if_neg hne]
  simp only [if_pos h5]
  exact ⟨trivial, trivial⟩

/-- C2 witness: a two-point series with horizon 2; the mean of `[60, 70]` is
65, forecast on the two days after date 1. -/
theorem claim2_witness :
    (getTrendDataFromSeries [⟨0, 60⟩, ⟨1, 70⟩] 30 2 (fun _ _ => 0)).forecastScores
        = List.replicate 2
            (pyRound (((tailN 30 [(⟨0, 60⟩ : SeriesPoint), ⟨1, 70⟩]).map (·.score)).sum
              / (((tailN 30 [(⟨0, 60⟩ : SeriesPoint), ⟨1, 70⟩]).map (·.score)).length : ℚ)))
      ∧ (getTrendDataFromSeries [⟨0, 60⟩, ⟨1, 70⟩] 30 2 (fun _ _ => 0)).forecastDates
        = (List.range 2).map
            (fun (i : ℕ) => ((tailN 30 [(⟨0, 60⟩ : SeriesPoint), ⟨1, 70⟩]).getLastD ⟨0, 0⟩).date + ((i : ℤ) + 1)) :=
  getTrendData_sparse_flatline [⟨0, 60⟩, ⟨1, 70⟩] 30 2 (fun _ _ => 0)
    (by decide) (by decide) (by decide)

/-! ## `_ensure_user_history` / `_prepare_series`: synthetic backfill

`np.random.normal(0, 12)` and `np.random.randint(4, 10)` are abstracted as
the oracles `noise` (per loop index) and `rt`; `int(...)` truncation on the
clipped non-negative score is `Int.floor`. -/

/-- The synthetic row built by `_ensure_user_history` for loop index `i`
(date `today - i`): weekend base 60, weekday base 70, score clipped to
`[35, 95]`, `completed = round(score/100 * total)`. -/
def synRow (uid today : ℤ) (noise : ℕ → ℚ) (rt : ℕ → ℤ) (i : ℕ) : DailyRow :=
  let date := today - (i : ℤ)
  let base : ℚ := if 5 ≤ pyWeekday date then 60 else 70
  let score : ℤ := ⌊clipQ (base + noise i) 35 95⌋
  let total := rt i
  ⟨uid, date, (score : ℚ), pyRound ((score : ℚ) / 100 * (total : ℚ)), total⟩

/-- The synthetic rows generated by the `for i in range(days)` loop:
today itself and dates with existing real data are skipped. -/
def synRows (existingDates : List ℤ) (uid today : ℤ) (days : ℕ)
    (noise : ℕ → ℚ) (rt : ℕ → ℤ) : List DailyRow :=
  (List.range days).filterMap (fun (i : ℕ) =>
    if today - (i : ℤ) = today then none
    else if (today - (i : ℤ)) ∈ existingDates then none
    else some (synRow uid today noise rt i))

/-- Model of `ProductivityForecaster._ensure_user_history` (default
`days = 365` at every call site): append the synthetic rows (and persist)
only when some were generated. -/
def ensureUserHistory (df : List DailyRow) (uid today : ℤ) (days : ℕ)
    (noise : ℕ → ℚ) (rt : ℕ → ℤ) : List DailyRow :=
  let syn := synRows ((df.filter (fun r => r.userId == uid)).map (·.date))
    uid today days noise rt
  if syn = [] then df else df ++ syn

/-- Insertion step of the date sort. -/
def insertByDate (r : DailyRow) : List DailyRow → List DailyRow
  | [] => [r]
  | x :: xs => if x.date ≤ r.date then x :: insertByDate r xs else r :: x :: xs

/-- Model of `df.sort_values("date")` (insertion sort; the ordering among
equal dates is immaterial to every claim proved here). -/
def sortByDate : List DailyRow → List DailyRow
  | [] => []
  | x :: xs => insertByDate x (sortByDate xs)

/-- Model of `ProductivityForecaster._prepare_series`: backfill, reload,
filter to the user, sort chronologically. -/
def prepareSeries (df : List DailyRow) (uid today : ℤ)
    (noise : ℕ → ℚ) (rt : ℕ → ℤ) : List DailyRow :=
  sortByDate ((ensureUserHistory df uid today 365 noise rt).filter
    (fun r => r.userId == uid))

/-- Model of `ProductivityForecaster.get_trend_data` end to end: prepare the
per-user series from the backing store, then run the forecast body. -/
def getTrendDataStore (df : List DailyRow) (uid today : ℤ) (historyDays horizon : ℕ)
    (noise : ℕ → ℚ) (rt : ℕ → ℤ) (model : ℤ → ℤ → ℚ) : TrendData :=
  getTrendDataFromSeries
    ((prepareSeries df uid today noise rt).map (fun r => ⟨r.date, r.score⟩))
    historyDays horizon model

/-! ### Length lemmas for the backfilled series -/

theorem filterMap_eq_map_of_forall {f : α → Option β} {g : α → β} :
    ∀ (l : List α), (∀ x ∈ l, f x = some (g x)) → l.filterMap f = l.map g := by
  intro l
  induction l with
  | nil => intro _; rfl
  | cons a l ih =>
    intro h
    have ha := h a (List.mem_cons_self a l)
    simp [List.filterMap_cons, ha, ih (fun x hx => h x (List.mem_cons_of_mem a hx))]

theorem synRows_empty_length (uid today : ℤ) (noise : ℕ → ℚ) (rt : ℕ → ℤ) (n : ℕ) :
    (synRows [] uid today (n + 1) noise rt).length = n := by
  unfold synRows
  rw [List.range_succ_eq_map, List.filterMap_cons]
  have hmap : (((List.range n).map Nat.succ).filterMap (fun (i : ℕ) =>
      if today - (i : ℤ) = today then none
      else if (today - (i : ℤ)) ∈ ([] : List ℤ) then none
      else some (synRow uid today noise rt i)))
      = ((List.range n).map Nat.succ).map (synRow uid today noise rt) := by
    apply filterMap_eq_map_of_forall
    intro x hx
    obtain ⟨j, _, rfl⟩ := List.mem_map.mp hx
    have hne : ¬ (today - ((j.succ : ℕ) : ℤ) = today) := by
      push_cast
      omega
    simp [hne]
    omega
  simp only [Nat.cast_zero, sub_zero, if_pos rfl, hmap]
  simp

theorem mem_synRows_userId {ed : List ℤ} {uid today : ℤ} {days : ℕ}
    {noise : ℕ → ℚ} {rt : ℕ → ℤ} {r : DailyRow}
    (h : r ∈ synRows ed uid today days noise rt) : r.userId = uid := by
  unfold synRows at h
  obtain ⟨i, _, hf⟩ := List.mem_filterMap.mp h
  by_cases h1 : today - (i : ℤ) = today
  · simp [h1] at hf
  · by_cases h2 : (today - (i : ℤ)) ∈ ed
    · simp [h1, h2] at hf
    · simp [h1, h2] at hf
      rw [← hf]
      rfl

theorem length_insertByDate (r : DailyRow) :
    ∀ l : List DailyRow, (insertByDate r l).length = l.length + 1 := by
  intro l
  induction l with
  | nil => rfl
  | cons x xs ih =>
    unfold insertByDate
    by_cases h : x.date ≤ r.date
    · simp [h, ih]
    · simp [h]

theorem length_sortByDate :
    ∀ l : List DailyRow, (sortByDate l).length = l.length := by
  intro l
  induction l with
  | nil => rfl
  | cons x xs ih =>
    unfold sortByDate
    rw [length_insertByDate, ih]
    rfl

theorem prepareSeries_nil_length (uid today : ℤ) (noise : ℕ → ℚ) (rt : ℕ → ℤ) :
    (prepareSeries [] uid today noise rt).length = 364 := by
  have hsyn : (synRows [] uid today 365 noise rt).length = 364 :=
    synRows_empty_length uid today noise rt 364
  have hne : synRows [] uid today 365 noise rt ≠ [] := by
    intro h
    rw [h] at hsyn
    simp at hsyn
  have hens : ensureUserHistory [] uid today 365 noise rt
      = synRows [] uid today 365 noise rt := by
    unfold ensureUserHistory
    simp [hne]
  have hfil : (synRows [] uid today 365 noise rt).filter (fun r => r.userId == uid)
      = synRows [] uid today 365 noise rt := by
    rw [List.filter_eq_self]
    intro r hr
    simp [mem_synRows_userId hr]
  unfold prepareSeries
  rw [hens, hfil, length_sortByDate, hsyn]

theorem getTrendDataFromSeries_lengths (series : List SeriesPoint)
    (hd hz : ℕ) (model : ℤ → ℤ → ℚ) (hne : series ≠ []) :
    (getTrendDataFromSeries series hd hz model).historyScores.length
        = (tailN hd series).length
      ∧ (getTrendDataFromSeries series hd hz model).forecastScores.length = hz := by
  rw [getTrendDataFromSeries, if_neg hne]
  by_cases h5 : (tailN hd series).length < 5
  · rw [if_pos h5]
    refine ⟨?_, ?_⟩
    · simp
    · simp
  · rw [if_neg h5]
    refine ⟨?_, ?_⟩
    · simp
    · simp

theorem trendStore_empty_lengths (uid today : ℤ)
    (noise : ℕ → ℚ) (rt : ℕ → ℤ) (model : ℤ → ℤ → ℚ) :
    (getTrendDataStore [] uid today 30 7 noise rt model).historyScores.length = 30
      ∧ (getTrendDataStore [] uid today 30 7 noise rt model).forecastScores.length = 7 := by
  unfold getTrendDataStore
  have hslen : ((prepareSeries [] uid today noise rt).map
      (fun r => (⟨r.date, r.score⟩ : SeriesPoint))).length = 364 := by
    rw [List.length_map, prepareSeries_nil_length]
  have hne : (prepareSeries [] uid today noise rt).map
      (fun r => (⟨r.date, r.score⟩ : SeriesPoint)) ≠ [] := by
    intro h
    rw [h] at hslen
    simp at hslen
  obtain ⟨hh, hf⟩ := getTrendDataFromSeries_lengths _ 30 7 model hne
  refine ⟨?_, hf⟩
  rw [hh]
  unfold tailN
  rw [List.length_drop, hslen]

/-- C3 (amended): `get_trend_data` raises no error on a user whose stored
series is empty, but it does NOT return empty sequences: `_ensure_user_history`
backfills 364 synthetic days (365-day window minus today), so with the default
window and horizon the history has 30 points and the forecast 7 — whatever the
random oracles and the fitted model return. The empty-output branch fires only
when the series is still empty after backfill, which an empty store never is. -/
theorem getTrendData_empty_store_backfilled (uid today : ℤ)
    (noise : ℕ → ℚ) (rt : ℕ → ℤ) (model : ℤ → ℤ → ℚ) :
    (getTrendDataStore [] uid today 30 7 noise rt model).historyScores.length = 30
      ∧ (getTrendDataStore [] uid today 30 7 noise rt model).forecastScores.length = 7 :=
  trendStore_empty_lengths uid today noise rt model

/-- C3 (counterexample): for user 1 on an empty store (concrete oracles),
`get_trend_data` returns non-empty history and forecast, contradicting the
claimed empty/empty result. -/
theorem claim3_counterexample :
    (getTrendDataStore [] 1 0 30 7 (fun _ => 0) (fun _ => 5) (fun _ _ => 0)).historyScores ≠ []
      ∧ (getTrendDataStore [] 1 0 30 7 (fun _ => 0) (fun _ => 5) (fun _ _ => 0)).forecastScores ≠ [] := by
  obtain ⟨hh, hf⟩ := trendStore_empty_lengths 1 0 (fun _ => 0) (fun _ => 5) (fun _ _ => 0)
  constructor
  · intro h
    rw [h] at hh
    simp at hh
  · intro h
    rw [h] at hf
    simp at hf

/-! ## `AttendancePredictor` (`predict_attendance.py`) -/

/-- The streak block returned by `calculate_streak_forecast`
(the `message` string field is omitted; it carries no data). -/
structure StreakForecast where
  current_streak : ℕ
  probability_continue : ℚ
  expected_end_in : ℚ
  deriving DecidableEq, Repr

/-- Count of leading entries equal to `1` — applied to the reversed
14-day window this is the `for a in reversed(recent)` streak loop
(`a == 1` counts full days only; half-days `0.5` stop the streak). -/
def leadingOnes : List ℚ → ℕ
  | [] => 0
  | a :: l => if a = 1 then leadingOnes l + 1 else 0

/-- Model of `AttendancePredictor.calculate_streak_forecast`: streak over the
last 14 attendance values, `probability_continue = round(p*100, 1)`, and the
clamped geometric expectation `expected_end_in`. -/
def calculateStreakForecast (att : List ℚ) (tomorrowPred : ℚ) : StreakForecast :=
  { current_streak := leadingOnes (tailN 14 att).reverse
    probability_continue := pyRoundTo 1 (tomorrowPred * 100)
    expected_end_in :=
      if 99/100 ≤ tomorrowPred then 10
      else pyRoundTo 1 (tomorrowPred / (1 - tomorrowPred)) }

/-- Model of `calculate_absence_likelihood`: one minus the mean of the three
sub-predictions. -/
def calculateAbsenceLikelihood (lr lstm prophet : ℚ) : ℚ :=
  1 - (lr + lstm + prophet) / 3

/-- The result dictionary of `predict_all`
(the `forecast_plot` pass-through is omitted; it carries no numeric data). -/
structure PredictAllResult where
  lr_prediction : ℚ
  prophet_prediction : ℚ
  lstm_prediction : ℚ
  next_week_forecast : List ℚ
  streak_prediction : StreakForecast
  absence_likelihood : ℚ
  average_prediction : ℚ
  deriving DecidableEq, Repr

/-- Model of `AttendancePredictor.predict_all`. `df` is the attendance
column of the loaded frame; the three sub-model outputs (`lr_pred`,
`lstm_pred`, `prophet_preds`) are parameters because the fitted models are
oracles here. Note the streak forecast is computed from `lr_pred` alone.
`prophet_preds[0]` raises in Python on an empty list; the `headD 0` default
is unreachable since `prophet.predict` always returns `days ≥ 1` values. -/
def predictAll (df : List ℚ) (lrPred lstmPred : ℚ) (prophetPreds : List ℚ) :
    PredictAllResult :=
  let streak := calculateStreakForecast df lrPred
  let p0 := prophetPreds.headD 0
  { lr_prediction := pyRoundTo 3 lrPred
    prophet_prediction := pyRoundTo 3 p0
    lstm_prediction := pyRoundTo 3 lstmPred
    next_week_forecast := prophetPreds.map (pyRoundTo 3)
    streak_prediction := streak
    absence_likelihood := pyRoundTo 3 (calculateAbsenceLikelihood lrPred lstmPred p0)
    average_prediction := pyRoundTo 3 ((lrPred + lstmPred + p0) / 3) }

/-- C4 (amended): for `p ∈ [0,1]`, `expected_end_in` is 10 whenever
`p ≥ 0.99`, and `round(p/(1-p), 1)` whenever `p < 0.99` — an "if", not the
claimed "exactly when", since the unclamped branch can itself produce 10. -/
theorem streakForecast_geometric (att : List ℚ) (p : ℚ) (h0 : 0 ≤ p) (h1 : p ≤ 1) :
    (99/100 ≤ p → (calculateStreakForecast att p).expected_end_in = 10)
      ∧ (p < 99/100 → (calculateStreakForecast att p).expected_end_in
          = pyRoundTo 1 (p / (1 - p))) := by
  constructor
  · intro h
    simp [calculateStreakForecast, if_pos h]
  · intro h
    simp [calculateStreakForecast, if_neg (not_le.mpr h)]

/-- C4 (counterexample): at `p = 10/11 < 0.99` the geometric branch returns
`round(10, 1) = 10`, so `expected_end_in = 10` does NOT hold exactly when
`p ≥ 0.99`. -/
theorem claim4_counterexample :
    (calculateStreakForecast [] (10/11)).expected_end_in = 10
      ∧ ¬ (99/100 ≤ (10/11 : ℚ)) := by
  constructor
  · have h : ¬ (99/100 ≤ (10/11 : ℚ)) := by norm_num
    simp only [calculateStreakForecast, if_neg h]
    norm_num [pyRoundTo, pyRound]
  · norm_num

/-- C4 witness: the amended theorem at `p = 1/2` (geometric branch,
`round(1, 1) = 1`). -/
theorem claim4_witness :
    (calculateStreakForecast [] (1/2)).expected_end_in
      = pyRoundTo 1 ((1/2 : ℚ) / (1 - 1/2)) :=
  (streakForecast_geometric [] (1/2) (by norm_num) (by norm_num)).2 (by norm_num)

/-- C7 (amended): in `predict_all` the streak forecast's
`probability_continue` is `round(lr_pred * 100, 1)` — derived from the
linear-regression prediction ALONE — while the three-model ensemble mean is
what feeds `average_prediction` and `absence_likelihood`. -/
theorem predictAll_streak_uses_lr (df : List ℚ) (lr lstm p0 : ℚ) (rest : List ℚ) :
    (predictAll df lr lstm (p0 :: rest)).streak_prediction.probability_continue
        = pyRoundTo 1 (lr * 100)
      ∧ (predictAll df lr lstm (p0 :: rest)).average_prediction
        = pyRoundTo 3 ((lr + lstm + p0) / 3)
      ∧ (predictAll df lr lstm (p0 :: rest)).absence_likelihood
        = pyRoundTo 3 (1 - (lr + lstm + p0) / 3) :=
  ⟨rfl, rfl, rfl⟩

/-- C7 (counterexample): with sub-predictions `lr = 1/2`, `lstm = 1`,
`prophet = [1]`, the code's `probability_continue` is `50.0`, while the
claimed `round(ensemble*100, 1)` would be `83.3`. -/
theorem claim7_counterexample :
    (predictAll [] (1/2) 1 [1]).streak_prediction.probability_continue = 50
      ∧ pyRoundTo 1 (((1/2 : ℚ) + 1 + 1) / 3 * 100) = 833/10
      ∧ (50 : ℚ) ≠ 833/10 := by
  refine ⟨?_, ?_, by norm_num⟩
  · show pyRoundTo 1 ((1/2 : ℚ) * 100) = 50
    norm_num [pyRoundTo, pyRound]
  · norm_num [pyRoundTo, pyRound]

/-! ## The three attendance sub-predictors (`lr_model.py`, `lstm_model.py`,
`prophet_model.py`)

Each `predict` has the shape: if no model is available (untrained and
nothing to load) return a fixed fallback; otherwise run the real prediction
inside `try`, returning the fallback on any internal exception.
`modelLoaded` models `self.model is not None` after the `load_model`
attempt, and the `attempt` argument is the try-block's outcome. -/

/-- Outcome of a sub-predictor's try-block: a raw prediction, or an
internal exception. -/
inductive PredAttempt where
  | ok (p : ℚ)
  | err
  deriving DecidableEq, Repr

/-- Outcome of the Prophet try-block: raw `yhat` values plus an optional
plot (modelled as `Option Unit`), or an internal exception. -/
inductive ProphetAttempt where
  | ok (preds : List ℚ) (plot : Option Unit)
  | err
  deriving DecidableEq, Repr

/-- Model of `AttendanceLinearRegression.predict`: fallback `0.75` when the
model is unavailable or the try-block raises; otherwise the prediction
clamped to `[0, 1]` by `max(0, min(1, _))`. -/
def lrPredict (modelLoaded : Bool) (attempt : PredAttempt) : ℚ :=
  if modelLoaded then
    match attempt with
    | .ok p => max 0 (min 1 p)
    | .err => 3/4
  else 3/4

/-- Model of `AttendanceLSTM.predict`: same fallback structure as the
linear-regression predictor, fallback `0.75`. -/
def lstmPredict (modelLoaded : Bool) (attempt : PredAttempt) : ℚ :=
  if modelLoaded then
    match attempt with
    | .ok p => max 0 (min 1 p)
    | .err => 3/4
  else 3/4

/-- Model of `AttendanceProphet.predict`: when the model is unavailable or
the try-block raises, returns `([0.8] * days, None)` — fallback `0.8`, not
`0.75`; otherwise each `yhat` clamped to `[0, 1]`, plus the plot. -/
def prophetPredict (modelLoaded : Bool) (days : ℕ) (attempt : ProphetAttempt) :
    List ℚ × Option Unit :=
  if modelLoaded then
    match attempt with
    | .ok preds plot => (preds.map (fun pred => max 0 (min 1 pred)), plot)
    | .err => (List.replicate days (4/5), none)
  else (List.replicate days (4/5), none)

/-- C5 (amended): untrained-or-failing sub-predictors do return fixed
fallbacks instead of propagating errors, but the fallback is `0.75` only for
the linear-regression and LSTM predictors; the Prophet predictor falls back
to a list of `0.8`, one per forecast day, with no plot. -/
theorem subpredictor_fallbacks (a : PredAttempt) (pa : ProphetAttempt) (days : ℕ) :
    lrPredict false a = 3/4
      ∧ lrPredict true PredAttempt.err = 3/4
      ∧ lstmPredict false a = 3/4
      ∧ lstmPredict true PredAttempt.err = 3/4
      ∧ prophetPredict false days pa = (List.replicate days (4/5), none)
      ∧ prophetPredict true days ProphetAttempt.err = (List.replicate days (4/5), none) :=
  ⟨rfl, rfl, rfl, rfl, rfl, rfl⟩

/-- C5 (counterexample): the untrained Prophet predictor returns `0.8` per
day, and `0.8 ≠ 0.75`, so not every sub-predictor falls back to `0.75`. -/
theorem claim5_counterexample :
    (prophetPredict false 7 ProphetAttempt.err).1 = List.replicate 7 (4/5)
      ∧ ((4 : ℚ)/5 ≠ 3/4) :=
  ⟨rfl, by norm_num⟩

/-! ## `get_prediction_summary` confidence (`productivity_forecaster.py`
lines 436-440)

`historical_std = float(np.std(history_scores))` is the population standard
deviation — the square root of `popVariance` below. Both the code's
confidence and the claimed formula consume only that `std` value, so they
are embedded as functions of it; `popVariance xs = 0` exactly characterises
the histories with `std = 0` (e.g. a constant history). -/

/-- Arithmetic mean of a list of rationals (`np.mean`). -/
def listMean (xs : List ℚ) : ℚ := xs.sum / (xs.length : ℚ)

/-- Population variance (`np.std(xs) ** 2`). -/
def popVariance (xs : List ℚ) : ℚ :=
  ((xs.map (fun x => (x - listMean xs) ^ 2)).sum) / (xs.length : ℚ)

/-- Model of the code's confidence as a function of `historical_std`:
`0.9` when the std is exactly zero, else `np.clip(1 - std/100, 0.5, 0.95)`. -/
def confidenceOfStd (std : ℚ) : ℚ :=
  if std = 0 then 9/10 else clipQ (1 - std / 100) (1/2) (19/20)

/-- The confidence formula asserted by the specification (for comparison
with `confidenceOfStd`, which is the code's): `1 - min(std/100, 0.6)`. -/
def specConfidenceOfStd (std : ℚ) : ℚ := 1 - min (std / 100) (3/5)

/-- C6 (amended): the code's confidence is `0.9` at `std = 0` and
`clip(1 - std/100, 0.5, 0.95)` otherwise, hence always within
`[0.5, 0.95]` — not the claimed `1 - min(std/100, 0.6)` on `[0.4, 1.0]`. -/
theorem confidence_bounds (std : ℚ) :
    1/2 ≤ confidenceOfStd std ∧ confidenceOfStd std ≤ 19/20 := by
  unfold confidenceOfStd
  by_cases h : std = 0
  · rw [if_pos h]
    norm_num
  · rw [if_neg h]
    unfold clipQ
    refine ⟨le_max_left _ _, max_le (by norm_num) (min_le_left _ _)⟩

/-- C6 (counterexample): the constant history `[50, 50]` has population
variance 0, so `std = 0`; there the code returns confidence `0.9` while the
claimed formula gives `1 - min(0, 0.6) = 1.0`. -/
theorem claim6_counterexample :
    popVariance [50, 50] = 0
      ∧ confidenceOfStd 0 = 9/10
      ∧ specConfidenceOfStd 0 = 1
      ∧ confidenceOfStd 0 ≠ specConfidenceOfStd 0 := by
  refine ⟨?_, ?_, ?_, ?_⟩
  · norm_num [popVariance, listMean]
  · norm_num [confidenceOfStd]
  · norm_num [specConfidenceOfStd]
  · norm_num [confidenceOfStd, specConfidenceOfStd]

/-! ## The two backing-store loaders (C9) -/

/-- State of a CSV backing file: absent, unreadable/malformed, or readable
with parsed rows. -/
inductive CsvFile (α : Type) where
  | missing
  | corrupt
  | ok (rows : List α)
  deriving DecidableEq, Repr

/-- Model of `ProductivityForecaster._load_daily_data`: a readable file is
returned as-is (the date re-typing is identity here); a missing or
malformed file raises inside `try`, and the handler writes a fresh empty
table and returns it. The pair is (returned table, file state afterwards). -/
def loadDailyData : CsvFile DailyRow → List DailyRow × CsvFile DailyRow
  | .ok rows => (rows, .ok rows)
  | .missing => ([], .ok [])
  | .corrupt => ([], .ok [])

/-- One raw row of `attendance_generated.csv`:
`attendance` is `1` present / `2` half-day / `0` absent. -/
structure AttCsvRow where
  date : ℤ
  attendance : ℤ
  deriving DecidableEq, Repr

/-- One row of the frame `AttendancePredictor.load_data` returns. -/
structure AttRow where
  date : ℤ
  attendance : ℚ
  day_of_week : ℤ
  month : ℤ
  deriving DecidableEq, Repr

/-- The `convert` helper of `load_data`: `1 ↦ 1.0`, `2 ↦ 0.5`, else `0.0`. -/
def convertAtt (a : ℤ) : ℚ :=
  if a = 1 then 1 else if a = 2 then 1/2 else 0

/-- Insertion step of the attendance date sort. -/
def insertAttByDate (r : AttCsvRow) : List AttCsvRow → List AttCsvRow
  | [] => [r]
  | x :: xs => if x.date ≤ r.date then x :: insertAttByDate r xs else r :: x :: xs

/-- Model of `df.sort_values('date')` for the attendance frame. -/
def sortAttByDate : List AttCsvRow → List AttCsvRow
  | [] => []
  | x :: xs => insertAttByDate x (sortAttByDate xs)

/-- The `day_of_week_effect` table of `create_sample_data`
(`[0.0, 0.0, 0.02, 0.03, 0.02, -0.15, -0.20]`, indexed by weekday). -/
def dowEffect (w : ℤ) : ℚ :=
  if w = 0 then 0
  else if w = 1 then 0
  else if w = 2 then 1/50
  else if w = 3 then 3/100
  else if w = 4 then 1/50
  else if w = 5 then -(3/20)
  else -(1/5)

/-- Model of `AttendancePredictor.create_sample_data`. Dates run from
2024-01-01 (a Monday, hence `weekday = i % 7`) through "now", modelled as day
offsets `0..today`; `noise` and `rand` are the oracles for
`np.random.normal(0, 0.05, n)` and `np.random.random()`; `monthOf` is the
calendar month of a day offset. `linspace(0, 0.1, n)` is `0.1 * i/(n-1)`
(and `[0]` when `n = 1`). -/
def createSampleData (today : ℕ) (noise rand : ℕ → ℚ) (monthOf : ℤ → ℤ) :
    List AttRow :=
  let n := today + 1
  (List.range n).map (fun (i : ℕ) =>
    let dayEff := dowEffect ((i : ℤ) % 7)
    let trendEff : ℚ := if n = 1 then 0 else (1/10) * (i : ℚ) / ((n : ℚ) - 1)
    let prob := 17/20 + dayEff + trendEff + noise i
    let prob2 := max (1/10) (min (49/50) prob)
    let attended : ℤ := if rand i < prob2 then 1 else 0
    { date := (i : ℤ), attendance := (attended : ℚ),
      day_of_week := (i : ℤ) % 7, month := monthOf (i : ℤ) })

/-- Model of `AttendancePredictor.load_data`: a readable file is sorted by
date and converted; a MISSING file falls through to `create_sample_data`
(which also persists the sample); a read that raises is caught and likewise
answered with `create_sample_data`. The recovery table is the generated
sample — `today + 1` rows — never an empty table. -/
def loadData (st : CsvFile AttCsvRow) (today : ℕ) (noise rand : ℕ → ℚ)
    (monthOf : ℤ → ℤ) : List AttRow × CsvFile AttCsvRow :=
  match st with
  | .ok rows =>
    ((sortAttByDate rows).map (fun r =>
      { date := r.date, attendance := convertAtt r.attendance,
        day_of_week := pyWeekday r.date, month := monthOf r.date }), .ok rows)
  | .missing =>
    let s := createSampleData today noise rand monthOf
    (s, .ok (s.map (fun r => { date := r.date, attendance := ⌊r.attendance⌋ })))
  | .corrupt =>
    let s := createSampleData today noise rand monthOf
    (s, .ok (s.map (fun r => { date := r.date, attendance := ⌊r.attendance⌋ })))

/-- C9 (amended): on a missing/corrupt backing file neither loader surfaces
an error, but only the productivity loader resets to an EMPTY persisted
table; the attendance loader recovers by generating sample data with one row
per day from 2024-01-01 to today (`today + 1` rows), never an empty table. -/
theorem load_recovery_behavior (today : ℕ) (noise rand : ℕ → ℚ) (monthOf : ℤ → ℤ) :
    loadDailyData CsvFile.missing = ([], CsvFile.ok [])
      ∧ loadDailyData CsvFile.corrupt = ([], CsvFile.ok [])
      ∧ (loadData CsvFile.missing today noise rand monthOf).1.length = today + 1
      ∧ (loadData CsvFile.corrupt today noise rand monthOf).1.length = today + 1 := by
  refine ⟨rfl, rfl, ?_, ?_⟩ <;> simp [loadData, createSampleData]

/-- C9 (counterexample): with the attendance CSV missing ("now" = day offset
10, concrete oracles), `load_data` returns an 11-row sample table, not the
claimed empty table. -/
theorem claim9_counterexample :
    (loadData CsvFile.missing 10 (fun _ => 0) (fun _ => 0) (fun _ => 1)).1.length = 11
      ∧ (11 : ℕ) ≠ 0 := by
  refine ⟨?_, by norm_num⟩
  simp [loadData, createSampleData]

/-! ## `csv_writer.update_csv_for_day` (C10) -/

/-- One row of `data/productivity/productivity.csv`
(columns `date, completed, total, score`). -/
structure ProdCsvRow where
  date : ℤ
  completed : ℤ
  total : ℤ
  score : ℤ
  deriving DecidableEq, Repr

/-- Model of `update_csv_for_day`: open in append mode (`"a"`), writing the
header only on a fresh file (`none`), then write the single new row; the
derived score is `round(completed/total*100)` guarded against `total = 0`.
Returns the file contents afterwards together with the returned score. -/
def updateCsvForDay (file : Option (List ProdCsvRow)) (date completed total : ℤ) :
    List ProdCsvRow × ℤ :=
  let score := if 0 < total then pyRound ((completed : ℚ) / (total : ℚ) * 100) else 0
  ((file.getD []) ++ [⟨date, completed, total, score⟩], score)

/-- C10: every call appends exactly one row and leaves all previously
written rows unchanged; two calls with the same date append two rows for
that date (append semantics, not upsert). -/
theorem updateCsv_append_semantics (file : Option (List ProdCsvRow)) (d c₁ t₁ c₂ t₂ : ℤ) :
    (updateCsvForDay file d c₁ t₁).1
        = (file.getD []) ++ [⟨d, c₁, t₁, (updateCsvForDay file d c₁ t₁).2⟩]
      ∧ (updateCsvForDay (some (updateCsvForDay file d c₁ t₁).1) d c₂ t₂).1
        = (updateCsvForDay file d c₁ t₁).1
            ++ [⟨d, c₂, t₂, (updateCsvForDay (some (updateCsvForDay file d c₁ t₁).1) d c₂ t₂).2⟩]
      ∧ (((updateCsvForDay (some (updateCsvForDay file d c₁ t₁).1) d c₂ t₂).1).filter
            (fun r => r.date == d)).length
        = ((file.getD []).filter (fun r => r.date == d)).length + 2 := by
  refine ⟨rfl, rfl, ?_⟩
  simp [updateCsvForDay, List.filter_append]
